import Mathlib

/-!
Verification of the multi-account Stripe MCP server core
(`advanced-stripe-mcp-server`): credential extraction, the multi-account
dispatcher (`StripeService.executeOperation` / `executeForAccount`), the
response formatter (`StripeService.formatResponse`), and the invoice
query builder / pagination driver (`InvoiceOperations`).

The TypeScript sources are shallowly embedded: JavaScript objects whose
keys are built by spread/computed-key insertion become association lists
with in-place update (`jsObjInsert`), `undefined`/absent optional values
become `Option`, thrown values (structured `Error` vs. plain throwables)
become the `Thrown` sum, and `async` operations that may throw become
`Except Thrown` valued functions.  Every definition follows the source
line by line.
-/

set_option autoImplicit false

namespace StripeMCP

/-- A JavaScript thrown value: either a structured `Error` carrying a
`message`, or any other throwable observed through `String(error)`. -/
inductive Thrown where
  | err (message : String)
  | nonError (stringForm : String)
deriving DecidableEq, Repr

/-- The message-extraction idiom
`error instanceof Error ? error.message : String(error)`. -/
def thrownMessage : Thrown → String
  | .err m => m
  | .nonError s => s

/-- The unchecked field access `error.message` used in
`InvoiceOperations` catch blocks: a non-`Error` throwable has no
`message` field, so the access yields `undefined` (printed "undefined"). -/
def errorMessageField : Thrown → String
  | .err m => m
  | .nonError _ => "undefined"

/-! ## JavaScript object construction

`{...acc, [k]: v}` copies `acc`'s entries in order and then writes key
`k`: if `k` is already present its value is updated **in place** (the key
keeps its original position), otherwise the entry is appended. -/

/-- Insertion into a JavaScript object modelled as an ordered
association list: update in place when the key exists, append otherwise. -/
def jsObjInsert {β : Type} : List (String × β) → String → β → List (String × β)
  | [], k, v => [(k, v)]
  | (k', v') :: rest, k, v =>
    if k' = k then (k', v) :: rest else (k', v') :: jsObjInsert rest k v

/-- Key lookup in a JavaScript object modelled as an association list. -/
def jsObjLookup {β : Type} : List (String × β) → String → Option β
  | [], _ => none
  | (k', v') :: rest, k => if k' = k then some v' else jsObjLookup rest k

/-! ## JavaScript string operations

The built-in `String` functions of the host are re-implemented here by
structural recursion over the character list (`String.data`), so that
concrete instances evaluate inside the kernel.  Each one models the
corresponding JavaScript `String.prototype` method. -/

/-- `s.startsWith(pre)`. -/
def strStartsWith (s pre : String) : Bool :=
  pre.data.isPrefixOf s.data

/-- `s.endsWith(suf)`. -/
def strEndsWith (s suf : String) : Bool :=
  suf.data.isSuffixOf s.data

/-- Helper for `strIncludes`: does `pat` occur as a contiguous block? -/
def containsSub (pat : List Char) : List Char → Bool
  | [] => pat.isEmpty
  | c :: rest => pat.isPrefixOf (c :: rest) || containsSub pat rest

/-- `s.includes(pat)`. -/
def strIncludes (s pat : String) : Bool :=
  containsSub pat.data s.data

/-- Helper for `replaceFirst`: replace the leftmost occurrence of `pat`. -/
def replaceFirstAux (pat repl : List Char) : List Char → List Char
  | [] => []
  | c :: rest =>
    if pat.isPrefixOf (c :: rest) then repl ++ (c :: rest).drop pat.length
    else c :: replaceFirstAux pat repl rest

/-- `s.replace(pat, repl)` with a string pattern: JavaScript replaces
only the **first** occurrence. -/
def replaceFirst (s pat repl : String) : String :=
  String.mk (replaceFirstAux pat.data repl.data s.data)

/-- `s.toLowerCase()`. -/
def strToLower (s : String) : String :=
  String.mk (s.data.map Char.toLower)

/-! ## Credential extraction (`src/libs/stripeHelpers.ts`) -/

/-- `extractStripeApiKeys(env)`: keep the env entries whose key matches
`STRIPE_` + … + `_ACCOUNT_` + … + `_APIKEY`, whose value is present
(truthy) and starts with `sk_` or `rk_`; rename each key by stripping
the first `STRIPE_` and the first `_APIKEY` and lower-casing, folding the
result into a fresh object. -/
def extractStripeApiKeys (env : List (String × Option String)) : List (String × String) :=
  ((env.filter fun kv =>
      strStartsWith kv.1 "STRIPE_" && strIncludes kv.1 "_ACCOUNT_" && strEndsWith kv.1 "_APIKEY")
    |>.filter fun kv =>
      match kv.2 with
      | none => false
      | some v =>
        if v = "" then false
        else if strStartsWith v "sk_" then true
        else strStartsWith v "rk_")
    |>.foldl (fun acc kv =>
      jsObjInsert acc (strToLower (replaceFirst (replaceFirst kv.1 "STRIPE_" "") "_APIKEY" ""))
        (kv.2.getD "")) []

/-! ## The multi-account dispatcher (`src/libs/stripeService.ts`)

An operation is invoked once per target account with the client bound to
that account; since the client is determined by the account name (its
key and the pinned API version), the operation is embedded as a function
of the account name returning `Except Thrown α`: `.error v` models the
operation (or the client construction) throwing `v`. -/

/-- The `SearchResult` record of `stripeService.ts`; optional fields are
`Option` (with `none` = `undefined`). -/
structure SearchResult (α : Type) where
  accountName : String
  success : Bool
  message : String
  data : Option α := none
  has_more : Option Bool := none
  next_page : Option String := none
deriving DecidableEq, Repr

/-- `Object.keys(this.apiKeys)`: the registered account names in
insertion order. -/
def keyNames (keys : List (String × String)) : List String :=
  keys.map Prod.fst

/-- JavaScript truthiness of an optional string (used for the `account`
selector, `starting_after` and `next_page`): `undefined` (and `null`)
and the empty string are falsy. -/
def jsTruthy : Option String → Bool
  | none => false
  | some s => s != ""

/-- `getStripeInstance`: throws `Account <name> not found` when the name
is not registered, otherwise yields the (opaque) client. -/
def getStripeInstance (keys : List (String × String)) (accountName : String) :
    Except Thrown Unit :=
  if (keyNames keys).contains accountName then .ok ()
  else .error (.err ("Account " ++ accountName ++ " not found"))

/-- The body of `executeForAccount`'s `try` block: construct the client,
then run the operation. -/
def runForAccount {α : Type} (keys : List (String × String)) (accountName : String)
    (op : String → Except Thrown α) : Except Thrown α :=
  match getStripeInstance keys accountName with
  | .error e => .error e
  | .ok _ => op accountName

/-- `executeForAccount`: wrap the operation's data into a success
outcome, or catch any thrown value into a failure outcome (message via
`thrownMessage`, no `data`). It never re-throws: it is total. -/
def executeForAccount {α : Type} (keys : List (String × String)) (accountName : String)
    (op : String → Except Thrown α) : SearchResult α :=
  match runForAccount keys accountName op with
  | .ok data =>
    { accountName := accountName, success := true, message := "処理が成功しました",
      data := some data }
  | .error e =>
    { accountName := accountName, success := false,
      message := "エラーが発生しました: " ++ thrownMessage e }

/-- `Object.keys(this.apiKeys).join(', ') || 'なし'`. -/
def availableAccountsDisplay (keys : List (String × String)) : String :=
  let avail := String.intercalate ", " (keyNames keys)
  if avail = "" then "なし" else avail

/-- The synthetic failure outcome of `executeOperation`'s fallthrough
branch (selector missing, empty, or unregistered). -/
def invalidAccountResult {α : Type} (keys : List (String × String))
    (account : Option String) : SearchResult α :=
  { accountName := "none", success := false,
    message :=
      if jsTruthy account then
        "指定されたアカウント \"" ++ account.getD "" ++ "\" は見つかりません。利用可能なアカウント: "
          ++ availableAccountsDisplay keys
      else
        "アカウントが指定されていません。利用可能なアカウント: " ++ availableAccountsDisplay keys }

/-- `executeOperation`: a truthy selector that is not `"all"` and is
registered targets that single account; the literal `"all"` fans out
over every registered account in insertion order; anything else yields
the single synthetic failure outcome without invoking the operation. -/
def executeOperation {α : Type} (keys : List (String × String)) (account : Option String)
    (op : String → Except Thrown α) : List (SearchResult α) :=
  if jsTruthy account && account != some "all"
      && (keyNames keys).contains (account.getD "") then
    [executeForAccount keys (account.getD "") op]
  else if account == some "all" then
    keys.map fun kv => executeForAccount keys kv.1 op
  else
    [invalidAccountResult keys account]

/-! ## The response formatter (`StripeService.formatResponse`)

The envelope is one message holding one text-typed content block.  Its
payload is either the fixed "no accounts" sentence or the JSON
serialization of the object built by the `reduce` over the outcomes;
the payload is modelled structurally (`TextPayload.json` carries the
object that `JSON.stringify` would serialize).  `JSON.stringify` omits
keys whose value is `undefined`, so a `SerializedEntry` field equal to
`none` means the key is absent from the serialized object. -/

/-- The per-account value placed in the serialized object:
`{data, success, message, has_more?, next_page?}` where a `none` field
is dropped by `JSON.stringify`. -/
structure SerializedEntry (α : Type) where
  data : Option α
  success : Bool
  message : String
  has_more : Option Bool
  next_page : Option String
deriving DecidableEq, Repr

/-- `has_more: result.has_more || undefined` and
`next_page: result.next_page || undefined`: a falsy value (`false`,
`undefined`, `""`) becomes `undefined` and is dropped from the
serialized object. -/
def serializeEntry {α : Type} (r : SearchResult α) : SerializedEntry α :=
  { data := r.data, success := r.success, message := r.message,
    has_more := match r.has_more with
      | some true => some true
      | _ => none,
    next_page := match r.next_page with
      | some s => if s = "" then none else some s
      | none => none }

/-- The payload of the single text content block. -/
inductive TextPayload (α : Type) where
  | plain (s : String)
  | json (obj : List (String × SerializedEntry α))
deriving DecidableEq, Repr

/-- One content block (`type` is always `"text"`). -/
structure MCPContent (α : Type) where
  type : String
  payload : TextPayload α
deriving DecidableEq, Repr

/-- The formatted response envelope. -/
structure MCPResponse (α : Type) where
  content : List (MCPContent α)
deriving DecidableEq, Repr

/-- The `reduce` of `formatResponse`: fold the outcomes into a fresh
object, keyed by `accountName` (spread + computed-key insertion). -/
def buildObj {α : Type} (results : List (SearchResult α)) :
    List (String × SerializedEntry α) :=
  results.foldl (fun acc r => jsObjInsert acc r.accountName (serializeEntry r)) []

/-- `formatResponse`: fixed "no accounts registered" text block for the
empty sequence, otherwise one text block serializing `buildObj`. -/
def formatResponse {α : Type} (results : List (SearchResult α)) : MCPResponse α :=
  if results.length = 0 then
    { content := [{ type := "text",
                    payload := .plain "登録されているStripeアカウントが見つかりません。" }] }
  else
    { content := [{ type := "text", payload := .json (buildObj results) }] }

/-- Specification helper: the first occurrence of each string, in
order — the key order `buildObj` produces. -/
def firstOccur : List String → List String
  | [] => []
  | k :: rest => k :: (firstOccur rest).filter fun x => x != k

/-! ## The pagination driver (`InvoiceOperations`, fetch-all variant)

`for await (const item of stripe.invoices.list/search(…))` iterates the
upstream items one by one across pages; the loop body pushes the item
and, when `fetchAll` was not requested, breaks once 100 items have
accumulated.  The upstream finite page sequence is modelled by the
flattened list of its items. -/

/-- The accumulate-and-break loop shared by the fetch-all traversals. -/
def fetchLoop {α : Type} (fetchAll : Bool) (acc : List α) : List α → List α
  | [] => acc.reverse
  | item :: rest =>
    if fetchAll = false ∧ 100 ≤ (item :: acc).length then (item :: acc).reverse
    else fetchLoop fetchAll (item :: acc) rest

namespace InvoiceOperations

/-- `InvoiceOperations.searchByCustomerId` (fetch-all variant): iterate
the customer's invoices, capped at 100 unless `fetchAll`. -/
def searchByCustomerId {α : Type} (fetchAll : Bool) (pages : List (List α)) : List α :=
  fetchLoop fetchAll [] pages.flatten

/-- `InvoiceOperations.list` (fetch-all variant): iterate the invoice
list (page size 20), capped at 100 unless `fetchAll`. -/
def list {α : Type} (fetchAll : Bool) (pages : List (List α)) : List α :=
  fetchLoop fetchAll [] pages.flatten

end InvoiceOperations

/-! ## The invoice search query builder (`InvoiceOperations.search`)

Both variants of `InvoiceOperations.search` build the same query-part
list: each filter contributes a predicate only when its value is truthy
(`undefined`, the empty string and the number `0` are falsy). -/

/-- The five invoice search filters. -/
structure InvoiceSearchFilters where
  email : Option String := none
  status : Option String := none
  total : Option Int := none
  subscription : Option String := none
  number : Option String := none
deriving DecidableEq, Repr

/-- `if (field) queryParts.push(`field:"${field}"`)` for a string filter. -/
def pushTruthyString (field : String) : Option String → List String
  | none => []
  | some v => if v = "" then [] else [field ++ ":\"" ++ v ++ "\""]

/-- `if (total) queryParts.push(`total:${total}`)` for the numeric
filter: `0` is falsy and the predicate value is unquoted. -/
def pushTruthyNumber (field : String) : Option Int → List String
  | none => []
  | some n => if n = 0 then [] else [field ++ ":" ++ toString n]

/-- The `queryParts` array, in push order:
email, status, total, subscription, number. -/
def buildQueryParts (f : InvoiceSearchFilters) : List String :=
  pushTruthyString "email" f.email
    ++ pushTruthyString "status" f.status
    ++ pushTruthyNumber "total" f.total
    ++ pushTruthyString "subscription" f.subscription
    ++ pushTruthyString "number" f.number

/-- The parameter object handed to `stripe.invoices.search`. -/
structure InvoiceSearchParams where
  query : String
  limit : Nat
  page : Option String := none
deriving DecidableEq, Repr

/-- One page returned by the Stripe search API. -/
structure SearchPage (α : Type) where
  data : List α
  has_more : Bool
  next_page : Option String
deriving DecidableEq, Repr

/-- The `OperationResult` of the invoice operations.  `next_page` is
`Option (Option String)`: the outer layer distinguishes an absent field
(`none` = `undefined`) from a present one, whose `none` is JSON `null`. -/
structure InvoiceOperationResult (α : Type) where
  success : Bool
  data : List α
  message : String
  has_more : Option Bool := none
  next_page : Option (Option String) := none
deriving DecidableEq, Repr

/-- The fixed failure returned by the reject-policy variant when no
filter contributed a predicate. -/
def zeroQueryFailure {α : Type} : InvoiceOperationResult α :=
  { success := false, data := [],
    message := "Error: 検索クエリが指定されていません。list_stripe_invoices toolを使用してください。" }

/-- `InvoiceOperations.search`, reject-policy variant: with zero query
parts, fail and direct the caller to `list_stripe_invoices`; otherwise
join the parts with `" AND "`, cap the limit at 100, pass a truthy
`starting_after` as the `page` token, and run one upstream search. The
surrounding `try/catch` turns a thrown value into a failure result
(reading the raw `error.message` field). -/
def invoiceSearchV1 {α : Type} (f : InvoiceSearchFilters) (limit : Nat)
    (starting_after : Option String)
    (upstream : InvoiceSearchParams → Except Thrown (SearchPage α)) :
    InvoiceOperationResult α :=
  let queryParts := buildQueryParts f
  if queryParts = [] then zeroQueryFailure
  else
    let params : InvoiceSearchParams :=
      { query := String.intercalate " AND " queryParts,
        limit := min limit 100,
        page := match starting_after with
          | some s => if s = "" then none else some s
          | none => none }
    match upstream params with
    | .ok page =>
      { success := true, data := page.data,
        has_more := some page.has_more,
        next_page := some page.next_page,
        message := "Found " ++ toString page.data.length ++ " invoices"
          ++ (if page.has_more then " (more available)" else "") ++ "." }
    | .error e =>
      { success := false, data := [], has_more := some false, next_page := some none,
        message := "Error searching invoices: " ++ errorMessageField e }

/-- `InvoiceOperations.search`, empty-query-default variant: with zero
query parts the query is the empty string and the upstream search is
executed anyway; the auto-paginating iterator is consumed through
`fetchLoop` (cap 100 unless `fetchAll`). -/
def invoiceSearchV2 {α : Type} (f : InvoiceSearchFilters) (fetchAll : Bool)
    (upstream : InvoiceSearchParams → List α) : InvoiceOperationResult α :=
  let queryParts := buildQueryParts f
  let query := if 0 < queryParts.length then String.intercalate " AND " queryParts else ""
  let result := fetchLoop fetchAll [] (upstream { query := query, limit := 100 })
  { success := true, data := result,
    message := "Found " ++ toString result.length
      ++ " invoices. If you need to search more than 100, please set fetchAll as true." }

/-! ## Customer search queries (`CustomerOperations`) -/

/-- `CustomerOperations.searchByName`: `query: name~"${options.name}"`. -/
def customerSearchByNameQuery (name : String) : String :=
  "name~\"" ++ name ++ "\""

/-- The fallback query of `CustomerOperations.searchByEmail` (used when
the exact `customers.list({email})` lookup finds nothing):
`query: email~"${options.email}"`. -/
def customerSearchByEmailFallbackQuery (email : String) : String :=
  "email~\"" ++ email ++ "\""

end StripeMCP

namespace StripeMCP

/-! ## Dispatcher lemmas -/

theorem executeForAccount_accountName {α : Type} (keys : List (String × String))
    (n : String) (op : String → Except Thrown α) :
    (executeForAccount keys n op).accountName = n := by
  unfold executeForAccount
  cases runForAccount keys n op <;> rfl

theorem runForAccount_of_mem {α : Type} {keys : List (String × String)} {n : String}
    (op : String → Except Thrown α) (h : n ∈ keyNames keys) :
    runForAccount keys n op = op n := by
  unfold runForAccount getStripeInstance
  rw [if_pos (List.elem_iff.mpr h)]

theorem runForAccount_of_not_mem {α : Type} {keys : List (String × String)} {n : String}
    (op : String → Except Thrown α) (h : n ∉ keyNames keys) :
    runForAccount keys n op = .error (.err ("Account " ++ n ++ " not found")) := by
  unfold runForAccount getStripeInstance
  rw [if_neg]
  intro hc
  exact h (List.elem_iff.mp hc)

theorem executeOperation_all {α : Type} (keys : List (String × String))
    (op : String → Except Thrown α) :
    executeOperation keys (some "all") op
      = keys.map fun kv => executeForAccount keys kv.1 op := by
  simp [executeOperation, jsTruthy]

theorem executeOperation_named {α : Type} (keys : List (String × String))
    (op : String → Except Thrown α) (s : String)
    (h1 : s ≠ "") (h2 : s ≠ "all") (h3 : s ∈ keyNames keys) :
    executeOperation keys (some s) op = [executeForAccount keys s op] := by
  simp [executeOperation, jsTruthy, h1, h2, h3]

theorem executeOperation_invalid {α : Type} (keys : List (String × String))
    (op : String → Except Thrown α) (s : String)
    (h2 : s ≠ "all") (h3 : s ∉ keyNames keys) :
    executeOperation keys (some s) op = [invalidAccountResult keys (some s)] := by
  simp [executeOperation, jsTruthy, h2, h3]

theorem executeOperation_missing {α : Type} (keys : List (String × String))
    (op : String → Except Thrown α) :
    executeOperation keys none op = [invalidAccountResult keys none] := by
  simp [executeOperation, jsTruthy]

end StripeMCP

/-- C2 (confirmed): selector resolution of `executeOperation`.  The
literal `"all"` yields one outcome per registered account, in insertion
order (the outcome list is the map of `executeForAccount` over the
registry, and its account names are exactly the registered names in
order); a registered name (nonempty, not the literal `"all"`) yields
exactly the one outcome for that account; an unregistered or missing
selector yields exactly one synthetic failure outcome whose message
names the invalid value (when one was given) and enumerates the
available accounts, and the supplied operation is never invoked there
(the result is the same for any two operations). -/
theorem StripeMCP.executeOperation_selector_resolution {α : Type}
    (keys : List (String × String)) (op op' : String → Except StripeMCP.Thrown α) :
    (executeOperation keys (some "all") op
        = keys.map fun kv => executeForAccount keys kv.1 op)
    ∧ (executeOperation keys (some "all") op).map SearchResult.accountName = keyNames keys
    ∧ (∀ s, s ≠ "" → s ≠ "all" → s ∈ keyNames keys →
        executeOperation keys (some s) op = [executeForAccount keys s op]
          ∧ (executeForAccount keys s op).accountName = s)
    ∧ (∀ s, s ≠ "all" → s ∉ keyNames keys →
        executeOperation keys (some s) op = [invalidAccountResult keys (some s)]
          ∧ executeOperation keys (some s) op = executeOperation keys (some s) op')
    ∧ executeOperation keys none op = [invalidAccountResult keys none]
    ∧ executeOperation keys none op = executeOperation keys none op'
    ∧ (∀ s, s ≠ "" →
        (invalidAccountResult keys (some s) : SearchResult α).message
          = "指定されたアカウント \"" ++ s ++ "\" は見つかりません。利用可能なアカウント: "
            ++ availableAccountsDisplay keys)
    ∧ (invalidAccountResult keys none : SearchResult α).message
        = "アカウントが指定されていません。利用可能なアカウント: " ++ availableAccountsDisplay keys
    ∧ (∀ a, (invalidAccountResult keys a : SearchResult α).success = false) := by
  refine ⟨executeOperation_all keys op, ?_, ?_, ?_, executeOperation_missing keys op, ?_, ?_, ?_, fun _ => rfl⟩
  · rw [executeOperation_all keys op, List.map_map]
    exact List.map_congr_left fun kv _ => executeForAccount_accountName keys kv.1 op
  · intro s h1 h2 h3
    exact ⟨executeOperation_named keys op s h1 h2 h3, executeForAccount_accountName keys s op⟩
  · intro s h2 h3
    rw [executeOperation_invalid keys op s h2 h3, executeOperation_invalid keys op' s h2 h3]
    exact ⟨rfl, rfl⟩
  · rw [executeOperation_missing keys op, executeOperation_missing keys op']
  · intro s h1
    simp [invalidAccountResult, jsTruthy, h1]
  · simp [invalidAccountResult, jsTruthy]

/-- C2 witness: with two registered accounts, the unknown selector
`"ghost"` produces the single synthetic failure naming it and listing
the two accounts, and a valid selector produces the single outcome. -/
theorem StripeMCP.executeOperation_selector_resolution_witness :
    executeOperation [("1st_account", "rk_live_1"), ("2nd_account", "rk_live_2")]
        (some "ghost") (fun _ => Except.ok (0 : Nat))
      = [invalidAccountResult [("1st_account", "rk_live_1"), ("2nd_account", "rk_live_2")]
          (some "ghost")]
    ∧ (invalidAccountResult [("1st_account", "rk_live_1"), ("2nd_account", "rk_live_2")]
          (some "ghost") : SearchResult Nat).message
      = "指定されたアカウント \"ghost\" は見つかりません。利用可能なアカウント: 1st_account, 2nd_account"
    ∧ executeOperation [("1st_account", "rk_live_1"), ("2nd_account", "rk_live_2")]
        (some "1st_account") (fun _ => Except.ok (0 : Nat))
      = [executeForAccount [("1st_account", "rk_live_1"), ("2nd_account", "rk_live_2")]
          "1st_account" (fun _ => Except.ok (0 : Nat))] := by
  obtain ⟨hall, hnames, hnamed, hinv, hmiss, hmiss2, hmsg, hmsgn, hsucc⟩ :=
    StripeMCP.executeOperation_selector_resolution (α := Nat)
      [("1st_account", "rk_live_1"), ("2nd_account", "rk_live_2")]
      (fun _ => Except.ok 0) (fun _ => Except.ok 0)
  refine ⟨(hinv "ghost" (by decide) (by decide)).1, ?_,
    (hnamed "1st_account" (by decide) (by decide) (by decide)).1⟩
  rw [hmsg "ghost" (by decide)]
  decide

/-- C3 (confirmed): failure isolation.  If the operation throws for the
account at position `i` and succeeds for the account at position `j`
(with `i < j`), the `"all"` dispatch is still the map of
`executeForAccount` over the whole registry in order — so it contains,
in original order, the failure outcome for the first account and the
success outcome for the second.  `executeOperation` is a total function
(it returns a list and cannot throw) by construction. -/
theorem StripeMCP.executeOperation_failure_isolation {α : Type}
    (keys : List (String × String)) (op : String → Except StripeMCP.Thrown α)
    (i j : Nat) (hi : i < keys.length) (hj : j < keys.length) (_hij : i < j)
    (v : StripeMCP.Thrown) (d : α)
    (hA : op (keys.get ⟨i, hi⟩).1 = .error v)
    (hB : op (keys.get ⟨j, hj⟩).1 = .ok d) :
    executeOperation keys (some "all") op
        = keys.map (fun kv => executeForAccount keys kv.1 op)
      ∧ executeForAccount keys (keys.get ⟨i, hi⟩).1 op
          = { accountName := (keys.get ⟨i, hi⟩).1, success := false,
              message := "エラーが発生しました: " ++ thrownMessage v }
      ∧ executeForAccount keys (keys.get ⟨j, hj⟩).1 op
          = { accountName := (keys.get ⟨j, hj⟩).1, success := true,
              message := "処理が成功しました", data := some d } := by
  have hmemA : (keys.get ⟨i, hi⟩).1 ∈ keyNames keys :=
    List.mem_map_of_mem Prod.fst (keys.get_mem ..)
  have hmemB : (keys.get ⟨j, hj⟩).1 ∈ keyNames keys :=
    List.mem_map_of_mem Prod.fst (keys.get_mem ..)
  refine ⟨executeOperation_all keys op, ?_, ?_⟩
  · unfold executeForAccount
    rw [runForAccount_of_mem op hmemA, hA]
  · unfold executeForAccount
    rw [runForAccount_of_mem op hmemB, hB]

/-- C3 witness: two accounts, the first throws `"boom"`, the second
succeeds with data `5`; both outcomes are present in order. -/
theorem StripeMCP.executeOperation_failure_isolation_witness :
    executeOperation [("1st_account", "rk_live_1"), ("2nd_account", "rk_live_2")] (some "all")
        (fun s => if s = "1st_account" then .error (.err "boom") else .ok (5 : Nat))
      = [{ accountName := "1st_account", success := false,
           message := "エラーが発生しました: " ++ StripeMCP.thrownMessage (.err "boom") },
         { accountName := "2nd_account", success := true,
           message := "処理が成功しました", data := some 5 }] := by
  obtain ⟨h1, h2, h3⟩ :=
    StripeMCP.executeOperation_failure_isolation
      [("1st_account", "rk_live_1"), ("2nd_account", "rk_live_2")]
      (fun s => if s = "1st_account" then .error (.err "boom") else .ok (5 : Nat))
      0 1 (by decide) (by decide) (by decide) (.err "boom") 5 rfl rfl
  have h2' : executeForAccount [("1st_account", "rk_live_1"), ("2nd_account", "rk_live_2")]
      "1st_account" (fun s => if s = "1st_account" then .error (.err "boom") else .ok (5 : Nat))
      = { accountName := "1st_account", success := false,
          message := "エラーが発生しました: " ++ StripeMCP.thrownMessage (.err "boom") } := h2
  have h3' : executeForAccount [("1st_account", "rk_live_1"), ("2nd_account", "rk_live_2")]
      "2nd_account" (fun s => if s = "1st_account" then .error (.err "boom") else .ok (5 : Nat))
      = { accountName := "2nd_account", success := true,
          message := "処理が成功しました", data := some 5 } := h3
  rw [h1]
  show [executeForAccount [("1st_account", "rk_live_1"), ("2nd_account", "rk_live_2")]
          "1st_account" (fun s => if s = "1st_account" then .error (.err "boom") else .ok (5 : Nat)),
        executeForAccount [("1st_account", "rk_live_1"), ("2nd_account", "rk_live_2")]
          "2nd_account" (fun s => if s = "1st_account" then .error (.err "boom") else .ok (5 : Nat))]
      = _
  rw [h2', h3']

/-- C4 (confirmed): `executeForAccount` never re-throws (it is a total
function into `SearchResult`).  When the operation throws `v` for a
registered account, or when client construction throws because the
account is unregistered, the outcome carries that `accountName`,
`success = false`, a message incorporating the thrown value's message
(`thrownMessage` yields the `Error`'s `message` for a structured error
and the string form otherwise), and no `data` field. -/
theorem StripeMCP.executeForAccount_error_capture {α : Type}
    (keys : List (String × String)) (name : String)
    (op : String → Except StripeMCP.Thrown α) (v : StripeMCP.Thrown) :
    (name ∈ keyNames keys → op name = .error v →
      executeForAccount keys name op
        = { accountName := name, success := false,
            message := "エラーが発生しました: " ++ thrownMessage v })
    ∧ (name ∉ keyNames keys →
      executeForAccount keys name op
        = { accountName := name, success := false,
            message := "エラーが発生しました: " ++ ("Account " ++ name ++ " not found") })
    ∧ (∀ m, thrownMessage (.err m) = m)
    ∧ (∀ s, thrownMessage (.nonError s) = s) := by
  refine ⟨?_, ?_, fun _ => rfl, fun _ => rfl⟩
  · intro hmem hop
    unfold executeForAccount
    rw [runForAccount_of_mem op hmem, hop]
  · intro hmem
    unfold executeForAccount
    rw [runForAccount_of_not_mem op hmem]
    rfl

/-- C4 witness: a registered account whose operation throws a
non-`Error` value, and an unregistered account (client construction
throws); both are captured into failure outcomes. -/
theorem StripeMCP.executeForAccount_error_capture_witness :
    executeForAccount [("1st_account", "rk_live_1")] "1st_account"
        (fun _ => (Except.error (.nonError "42") : Except StripeMCP.Thrown Nat))
      = { accountName := "1st_account", success := false,
          message := "エラーが発生しました: " ++ StripeMCP.thrownMessage (.nonError "42") }
    ∧ executeForAccount [("1st_account", "rk_live_1")] "ghost"
        (fun _ => (Except.error (.nonError "42") : Except StripeMCP.Thrown Nat))
      = { accountName := "ghost", success := false,
          message := "エラーが発生しました: " ++ ("Account " ++ "ghost" ++ " not found") } :=
  ⟨(StripeMCP.executeForAccount_error_capture [("1st_account", "rk_live_1")] "1st_account"
      (fun _ => Except.error (.nonError "42")) (.nonError "42")).1 (by decide) rfl,
   (StripeMCP.executeForAccount_error_capture [("1st_account", "rk_live_1")] "ghost"
      (fun _ => Except.error (.nonError "42")) (.nonError "42")).2.1 (by decide)⟩

namespace StripeMCP

/-! ## Pagination driver lemmas -/

theorem fetchLoop_fetchAll {α : Type} (l acc : List α) :
    fetchLoop true acc l = acc.reverse ++ l := by
  induction l generalizing acc with
  | nil => simp [fetchLoop]
  | cons x rest ih => simp [fetchLoop, ih]

theorem fetchLoop_cap {α : Type} (l acc : List α) (h : acc.length < 100) :
    (fetchLoop false acc l).length ≤ 100 := by
  induction l generalizing acc with
  | nil =>
    simp only [fetchLoop, List.length_reverse]
    omega
  | cons x rest ih =>
    simp only [fetchLoop]
    split
    · simp only [List.length_reverse, List.length_cons]
      omega
    · next hcond =>
      refine ih (x :: acc) ?_
      have hle : ¬ (100 ≤ (x :: acc).length) := fun hle => hcond ⟨trivial, hle⟩
      simp only [List.length_cons] at hle ⊢
      omega

/-! ## Formatter lemmas -/

theorem jsObjInsert_keys {β : Type} (l : List (String × β)) (k : String) (v : β) :
    (jsObjInsert l k v).map Prod.fst =
      if k ∈ l.map Prod.fst then l.map Prod.fst else l.map Prod.fst ++ [k] := by
  induction l with
  | nil => simp [jsObjInsert]
  | cons p rest ih =>
    obtain ⟨k', v'⟩ := p
    by_cases hk : k' = k
    · subst hk
      simp [jsObjInsert]
    · by_cases hm : k ∈ rest.map Prod.fst <;>
        simp [jsObjInsert, hk, ih, hm, Ne.symm hk]

theorem jsObjLookup_insert_self {β : Type} (l : List (String × β)) (k : String) (v : β) :
    jsObjLookup (jsObjInsert l k v) k = some v := by
  induction l with
  | nil => simp [jsObjInsert, jsObjLookup]
  | cons p rest ih =>
    obtain ⟨k', v'⟩ := p
    by_cases hk : k' = k
    · subst hk
      simp [jsObjInsert, jsObjLookup]
    · simp [jsObjInsert, jsObjLookup, hk, ih]

theorem jsObjLookup_insert_ne {β : Type} (l : List (String × β)) (k k2 : String) (v : β)
    (h : k ≠ k2) :
    jsObjLookup (jsObjInsert l k v) k2 = jsObjLookup l k2 := by
  induction l with
  | nil => simp [jsObjInsert, jsObjLookup, h]
  | cons p rest ih =>
    obtain ⟨k', v'⟩ := p
    by_cases hk : k' = k
    · subst hk
      simp [jsObjInsert, jsObjLookup, h]
    · simp [jsObjInsert, jsObjLookup, hk, ih]

theorem mem_jsObjInsert {β : Type} {l : List (String × β)} {k : String} {v : β}
    {p : String × β} (h : p ∈ jsObjInsert l k v) : p ∈ l ∨ p = (k, v) := by
  induction l with
  | nil =>
    simp [jsObjInsert] at h
    exact Or.inr h
  | cons q rest ih =>
    obtain ⟨k', v'⟩ := q
    by_cases hk : k' = k
    · subst hk
      simp [jsObjInsert] at h
      rcases h with h | h
      · exact Or.inr (by simp [h])
      · exact Or.inl (List.mem_cons_of_mem _ h)
    · simp [jsObjInsert, hk] at h
      rcases h with h | h
      · exact Or.inl (by simp [h])
      · rcases ih h with h' | h'
        · exact Or.inl (List.mem_cons_of_mem _ h')
        · exact Or.inr h'

theorem buildObj_concat {α : Type} (rs : List (SearchResult α)) (r : SearchResult α) :
    buildObj (rs ++ [r]) = jsObjInsert (buildObj rs) r.accountName (serializeEntry r) := by
  simp [buildObj, List.foldl_append]

theorem mem_firstOccur {x : String} : ∀ {l : List String}, x ∈ firstOccur l ↔ x ∈ l := by
  intro l
  induction l with
  | nil => simp [firstOccur]
  | cons k rest ih =>
    simp only [firstOccur, List.mem_cons, List.mem_filter, ih, bne_iff_ne]
    by_cases hx : x = k <;> simp [hx]

theorem firstOccur_concat (l : List String) (n : String) :
    firstOccur (l ++ [n]) = if n ∈ l then firstOccur l else firstOccur l ++ [n] := by
  induction l with
  | nil => simp [firstOccur]
  | cons k rest ih =>
    show firstOccur (k :: (rest ++ [n])) = _
    rw [firstOccur, ih]
    by_cases hn : n ∈ rest
    · rw [if_pos hn, if_pos (List.mem_cons_of_mem k hn), firstOccur]
    · by_cases hk : n = k
      · subst hk
        rw [if_neg hn, if_pos (List.mem_cons_self n rest), firstOccur]
        simp [List.filter_append]
      · rw [if_neg hn, if_neg (by simp [hk, hn]), firstOccur]
        simp [List.filter_append, hk]

theorem buildObj_keys {α : Type} (rs : List (SearchResult α)) :
    (buildObj rs).map Prod.fst = firstOccur (rs.map SearchResult.accountName) := by
  induction rs using List.reverseRecOn with
  | nil => simp [buildObj, firstOccur]
  | append_singleton rs r ih =>
    rw [buildObj_concat, jsObjInsert_keys, ih, List.map_append, List.map_singleton,
      firstOccur_concat]
    simp [mem_firstOccur]

theorem buildObj_lookup {α : Type} (rs : List (SearchResult α)) (name : String) :
    jsObjLookup (buildObj rs) name
      = ((rs.filter fun r => r.accountName == name).getLast?).map serializeEntry := by
  induction rs using List.reverseRecOn with
  | nil => simp [buildObj, jsObjLookup]
  | append_singleton rs r ih =>
    rw [buildObj_concat]
    by_cases hn : r.accountName = name
    · rw [hn, jsObjLookup_insert_self]
      simp [List.filter_append, hn, List.getLast?_concat]
    · rw [jsObjLookup_insert_ne _ _ _ _ hn, ih]
      simp [List.filter_append, hn]

theorem mem_buildObj {α : Type} {rs : List (SearchResult α)} {p : String × SerializedEntry α}
    (h : p ∈ buildObj rs) : ∃ r, r ∈ rs ∧ p = (r.accountName, serializeEntry r) := by
  induction rs using List.reverseRecOn with
  | nil => simp [buildObj] at h
  | append_singleton rs r ih =>
    rw [buildObj_concat] at h
    rcases mem_jsObjInsert h with h' | h'
    · obtain ⟨r0, hr0, he⟩ := ih h'
      exact ⟨r0, by simp [hr0], he⟩
    · exact ⟨r, by simp, h'⟩

end StripeMCP

/-- C5 (confirmed): pagination termination of the exhaustive invoice
traversals.  Both `InvoiceOperations.searchByCustomerId` and
`InvoiceOperations.list` are total structurally-recursive functions of
the finite upstream page sequence (so they terminate); without
`fetchAll` they accumulate at most 100 items, and with `fetchAll` the
cap is lifted and the result is exactly the flattened upstream item
sequence (the accumulated count equals the upstream total). -/
theorem StripeMCP.invoice_pagination_termination {α : Type} (pages : List (List α)) :
    (InvoiceOperations.searchByCustomerId false pages).length ≤ 100
    ∧ InvoiceOperations.searchByCustomerId true pages = pages.flatten
    ∧ (InvoiceOperations.list false pages).length ≤ 100
    ∧ InvoiceOperations.list true pages = pages.flatten := by
  refine ⟨fetchLoop_cap _ _ (by simp), ?_, fetchLoop_cap _ _ (by simp), ?_⟩ <;>
    simp [InvoiceOperations.searchByCustomerId, InvoiceOperations.list, fetchLoop_fetchAll]

/-- C6 (confirmed): envelope shape of `formatResponse`.  The empty
outcome sequence yields exactly one text content block with the fixed
"no accounts registered" message; a nonempty sequence yields exactly one
text content block serializing the object whose keys are the outcomes'
account names in sequence order (first occurrence) and whose value at
each name comes from the **last** outcome with that name (last-write-wins
collapse). -/
theorem StripeMCP.formatResponse_envelope_shape {α : Type} :
    formatResponse ([] : List (SearchResult α))
        = { content :=
              [{ type := "text",
                 payload := .plain "登録されているStripeアカウントが見つかりません。" }] }
    ∧ (∀ (r : SearchResult α) (rs : List (SearchResult α)),
        formatResponse (r :: rs)
          = { content := [{ type := "text", payload := .json (buildObj (r :: rs)) }] })
    ∧ (∀ (rs : List (SearchResult α)),
        (buildObj rs).map Prod.fst = firstOccur (rs.map SearchResult.accountName))
    ∧ (∀ (rs : List (SearchResult α)) (name : String),
        jsObjLookup (buildObj rs) name
          = ((rs.filter fun r => r.accountName == name).getLast?).map serializeEntry) := by
  refine ⟨rfl, fun r rs => ?_, buildObj_keys, buildObj_lookup⟩
  simp [formatResponse]

/-- C7 (confirmed): the per-account value that `formatResponse`
serializes for a name (the serialization of the last outcome carrying
that name) contains the `has_more` key (`isSome`) exactly when that
outcome's `has_more` is truthy (`some true`) and is then `some true`
(never a `false`/`null` placeholder), and contains the `next_page` key
exactly when that outcome's `next_page` is truthy (present and
nonempty), in which case the value is preserved. -/
theorem StripeMCP.formatResponse_truthy_pagination_fields {α : Type}
    (rs : List (SearchResult α)) (name : String) (r : SearchResult α)
    (h : (rs.filter fun x => x.accountName == name).getLast? = some r) :
    jsObjLookup (buildObj rs) name = some (serializeEntry r)
    ∧ (serializeEntry r).has_more = (if r.has_more = some true then some true else none)
    ∧ ((serializeEntry r).has_more.isSome ↔ r.has_more = some true)
    ∧ ((serializeEntry r).has_more = none ∨ (serializeEntry r).has_more = some true)
    ∧ (serializeEntry r).next_page = (if jsTruthy r.next_page then r.next_page else none)
    ∧ ((serializeEntry r).next_page.isSome ↔ jsTruthy r.next_page = true) := by
  refine ⟨by rw [buildObj_lookup, h]; rfl, ?_, ?_, ?_, ?_, ?_⟩
  · rcases hm : r.has_more with _ | _ | _ <;> simp [serializeEntry, hm]
  · rcases hm : r.has_more with _ | _ | _ <;> simp [serializeEntry, hm]
  · rcases hm : r.has_more with _ | _ | _ <;> simp [serializeEntry, hm]
  · rcases hn : r.next_page with _ | s
    · simp [serializeEntry, jsTruthy, hn]
    · by_cases hs : s = "" <;> simp [serializeEntry, jsTruthy, hn, hs]
  · rcases hn : r.next_page with _ | s
    · simp [serializeEntry, jsTruthy, hn]
    · by_cases hs : s = "" <;> simp [serializeEntry, jsTruthy, hn, hs]

/-- C7 witness: an outcome with falsy `has_more = some false` and falsy
`next_page = some ""` serializes with both keys omitted. -/
theorem StripeMCP.formatResponse_truthy_pagination_fields_witness :
    jsObjLookup
        (buildObj [({ accountName := "acct", success := true, message := "m",
                      data := some (1 : Nat), has_more := some false,
                      next_page := some "" } : SearchResult Nat)]) "acct"
      = some (serializeEntry ({ accountName := "acct", success := true, message := "m",
                                data := some (1 : Nat), has_more := some false,
                                next_page := some "" } : SearchResult Nat))
    ∧ (serializeEntry ({ accountName := "acct", success := true, message := "m",
                         data := some (1 : Nat), has_more := some false,
                         next_page := some "" } : SearchResult Nat)).has_more = none
    ∧ (serializeEntry ({ accountName := "acct", success := true, message := "m",
                         data := some (1 : Nat), has_more := some false,
                         next_page := some "" } : SearchResult Nat)).next_page = none := by
  obtain ⟨h1, h2, h3, h4, h5, h6⟩ :=
    StripeMCP.formatResponse_truthy_pagination_fields
      [({ accountName := "acct", success := true, message := "m",
          data := some (1 : Nat), has_more := some false,
          next_page := some "" } : SearchResult Nat)] "acct"
      ({ accountName := "acct", success := true, message := "m",
         data := some (1 : Nat), has_more := some false,
         next_page := some "" } : SearchResult Nat) (by decide)
  exact ⟨h1, by rw [h2]; decide, by rw [h5]; decide⟩

/-- C8 (counterexample): the reject policy is **not** the single policy
for zero-predicate invoice search in this repository.  The
empty-query-default variant of `InvoiceOperations.search` builds the
empty query for a zero-predicate input, still calls upstream (the result
depends on the upstream answer) and returns a success result — not the
failure outcome the claim requires. -/
theorem StripeMCP.invoiceSearch_zeroPredicate_policy_divergence :
    buildQueryParts {} = []
    ∧ (invoiceSearchV2 {} false (fun _ => [(0 : Nat)])).success = true
    ∧ (invoiceSearchV2 {} false (fun _ => [(0 : Nat)])).data = [0]
    ∧ (invoiceSearchV2 {} false (fun _ => ([] : List Nat))).success = true
    ∧ (invoiceSearchV2 {} false (fun _ => ([] : List Nat))).data = []
    ∧ invoiceSearchV2 {} false (fun _ => [(0 : Nat)]) ≠ zeroQueryFailure := by
  refine ⟨rfl, rfl, rfl, rfl, rfl, ?_⟩
  intro hcontra
  exact absurd (congrArg InvoiceOperationResult.success hcontra) (by decide)

/-- C8 (amended, confirmed): in the reject-policy variant of
`InvoiceOperations.search`, a zero-predicate input yields the failure
result (`success = false`, empty data) whose message directs the caller
to the `list_stripe_invoices` tool, and the upstream search is never
called (the result is the same for any two upstream functions). -/
theorem StripeMCP.invoiceSearchV1_zeroPredicate_reject {α : Type}
    (f : InvoiceSearchFilters) (limit : Nat) (starting_after : Option String)
    (upstream upstream' : InvoiceSearchParams → Except StripeMCP.Thrown (SearchPage α))
    (h : buildQueryParts f = []) :
    invoiceSearchV1 f limit starting_after upstream = zeroQueryFailure
    ∧ invoiceSearchV1 f limit starting_after upstream
        = invoiceSearchV1 f limit starting_after upstream'
    ∧ (zeroQueryFailure : InvoiceOperationResult α).success = false
    ∧ (zeroQueryFailure : InvoiceOperationResult α).data = []
    ∧ (zeroQueryFailure : InvoiceOperationResult α).message
        = "Error: 検索クエリが指定されていません。list_stripe_invoices toolを使用してください。" := by
  refine ⟨?_, ?_, rfl, rfl, rfl⟩ <;> simp [invoiceSearchV1, h]

/-- C8 witness: the all-absent filter record takes the reject branch. -/
theorem StripeMCP.invoiceSearchV1_zeroPredicate_reject_witness :
    invoiceSearchV1 ({} : InvoiceSearchFilters) 10 none
        (fun _ => (Except.ok { data := [(0 : Nat)], has_more := false, next_page := none } :
          Except StripeMCP.Thrown (SearchPage Nat)))
      = zeroQueryFailure
    ∧ (zeroQueryFailure : InvoiceOperationResult Nat).success = false :=
  ⟨(StripeMCP.invoiceSearchV1_zeroPredicate_reject {} 10 none
      (fun _ => Except.ok { data := [(0 : Nat)], has_more := false, next_page := none })
      (fun _ => Except.ok { data := [(0 : Nat)], has_more := false, next_page := none })
      rfl).1,
   (StripeMCP.invoiceSearchV1_zeroPredicate_reject (α := Nat) {} 10 none
      (fun _ => Except.ok { data := [(0 : Nat)], has_more := false, next_page := none })
      (fun _ => Except.ok { data := [(0 : Nat)], has_more := false, next_page := none })
      rfl).2.2.1⟩

/-- C9 (counterexample): the email predicate of the invoice search query
uses the exact operator `:` (`email:"value"`), not the fuzzy operator
`~` the claim prescribes for email predicates; the fuzzy form is used
only on the customer side (shown by the third conjunct). -/
theorem StripeMCP.invoiceSearch_email_exact_not_fuzzy :
    buildQueryParts { email := some "a@b.c" } = ["email:\"a@b.c\""]
    ∧ "email:\"a@b.c\"" ≠ "email~\"a@b.c\""
    ∧ customerSearchByEmailFallbackQuery "a@b.c" = "email~\"a@b.c\"" := by
  refine ⟨rfl, ?_, by decide⟩
  decide

/-- C9 (amended, confirmed): the invoice search query is the `" AND "`
join of its per-field predicates, and every predicate uses the exact
operator `:` — `email`, `status`, `subscription` and `number` with a
quoted value and `total` unquoted — while the customer-side `name` and
email-fallback queries use the fuzzy operator `~`.  The last conjunct
exhibits the query string handed to the upstream search (observed
through an upstream function that echoes it back in the error
message). -/
theorem StripeMCP.searchQuery_predicate_shapes (f : InvoiceSearchFilters) :
    (∀ p, p ∈ buildQueryParts f →
        p = "email:\"" ++ f.email.getD "" ++ "\""
      ∨ p = "status:\"" ++ f.status.getD "" ++ "\""
      ∨ p = "total:" ++ toString (f.total.getD 0)
      ∨ p = "subscription:\"" ++ f.subscription.getD "" ++ "\""
      ∨ p = "number:\"" ++ f.number.getD "" ++ "\"")
    ∧ (∀ name, customerSearchByNameQuery name = "name~\"" ++ name ++ "\"")
    ∧ (∀ email, customerSearchByEmailFallbackQuery email = "email~\"" ++ email ++ "\"")
    ∧ (∀ (limit : Nat) (sa : Option String), buildQueryParts f ≠ [] →
        invoiceSearchV1 f limit sa (fun p => Except.error (.err p.query))
          = ({ success := false, data := [], has_more := some false, next_page := some none,
               message := "Error searching invoices: "
                 ++ String.intercalate " AND " (buildQueryParts f) } :
              InvoiceOperationResult Nat)) := by
  obtain ⟨fe, fs, ft, fsub, fn⟩ := f
  refine ⟨?_, fun _ => rfl, fun _ => rfl, ?_⟩
  · intro p hp
    simp only [buildQueryParts, List.mem_append] at hp
    rcases hp with ((((hp | hp) | hp) | hp) | hp)
    · rcases fe with _ | e
      · simp [pushTruthyString] at hp
      · by_cases he : e = ""
        · simp [pushTruthyString, he] at hp
        · simp only [pushTruthyString, if_neg he, List.mem_singleton] at hp
          left
          simp [hp]
    · rcases fs with _ | s
      · simp [pushTruthyString] at hp
      · by_cases hs : s = ""
        · simp [pushTruthyString, hs] at hp
        · simp only [pushTruthyString, if_neg hs, List.mem_singleton] at hp
          right; left
          simp [hp]
    · rcases ft with _ | t
      · simp [pushTruthyNumber] at hp
      · by_cases ht : t = 0
        · simp [pushTruthyNumber, ht] at hp
        · simp only [pushTruthyNumber, if_neg ht, List.mem_singleton] at hp
          right; right; left
          simp [hp]
    · rcases fsub with _ | s
      · simp [pushTruthyString] at hp
      · by_cases hs : s = ""
        · simp [pushTruthyString, hs] at hp
        · simp only [pushTruthyString, if_neg hs, List.mem_singleton] at hp
          right; right; right; left
          simp [hp]
    · rcases fn with _ | n
      · simp [pushTruthyString] at hp
      · by_cases hn : n = ""
        · simp [pushTruthyString, hn] at hp
        · simp only [pushTruthyString, if_neg hn, List.mem_singleton] at hp
          right; right; right; right
          simp [hp]
  · intro limit sa hne
    simp [invoiceSearchV1, hne, errorMessageField]

/-- C9 witness: with email and status filters the upstream query is the
`" AND "` join `email:"a@b.c" AND status:"paid"`, and the email part is
one of the exact-operator shapes. -/
theorem StripeMCP.searchQuery_predicate_shapes_witness :
    invoiceSearchV1 ({ email := some "a@b.c", status := some "paid" } : InvoiceSearchFilters)
        10 none (fun p => Except.error (.err p.query))
      = ({ success := false, data := [], has_more := some false, next_page := some none,
           message := "Error searching invoices: " ++ String.intercalate " AND "
             (buildQueryParts { email := some "a@b.c", status := some "paid" }) } :
          InvoiceOperationResult Nat)
    ∧ ("email:\"a@b.c\""
          = "email:\"" ++ (({ email := some "a@b.c", status := some "paid" } :
              InvoiceSearchFilters).email.getD "") ++ "\""
      ∨ "email:\"a@b.c\""
          = "status:\"" ++ (({ email := some "a@b.c", status := some "paid" } :
              InvoiceSearchFilters).status.getD "") ++ "\""
      ∨ "email:\"a@b.c\""
          = "total:" ++ toString (({ email := some "a@b.c", status := some "paid" } :
              InvoiceSearchFilters).total.getD 0)
      ∨ "email:\"a@b.c\""
          = "subscription:\"" ++ (({ email := some "a@b.c", status := some "paid" } :
              InvoiceSearchFilters).subscription.getD "") ++ "\""
      ∨ "email:\"a@b.c\""
          = "number:\"" ++ (({ email := some "a@b.c", status := some "paid" } :
              InvoiceSearchFilters).number.getD "") ++ "\"") :=
  ⟨(StripeMCP.searchQuery_predicate_shapes
      { email := some "a@b.c", status := some "paid" }).2.2.2 10 none (by decide),
   (StripeMCP.searchQuery_predicate_shapes
      { email := some "a@b.c", status := some "paid" }).1 "email:\"a@b.c\"" (by decide)⟩

/-- C10 (confirmed): in the invoice search a `total` equal to `0` and
any string filter equal to the empty string are falsy, so they
contribute no predicate — exactly as if the filter were absent; in
particular a call whose only supplied filter is `total = 0` takes the
zero-predicate branch of the reject-policy variant and returns the
"no search query specified" failure. -/
theorem StripeMCP.invoiceSearch_falsy_filters_absent (f : InvoiceSearchFilters) :
    buildQueryParts { f with total := some 0 } = buildQueryParts { f with total := none }
    ∧ buildQueryParts { f with email := some "" } = buildQueryParts { f with email := none }
    ∧ buildQueryParts { f with status := some "" } = buildQueryParts { f with status := none }
    ∧ buildQueryParts { f with subscription := some "" }
        = buildQueryParts { f with subscription := none }
    ∧ buildQueryParts { f with number := some "" } = buildQueryParts { f with number := none }
    ∧ (∀ (limit : Nat) (sa : Option String)
        (upstream : InvoiceSearchParams → Except StripeMCP.Thrown (SearchPage Nat)),
        invoiceSearchV1 { total := some 0 } limit sa upstream = zeroQueryFailure) := by
  exact ⟨by simp [buildQueryParts, pushTruthyNumber],
    by simp [buildQueryParts, pushTruthyString],
    by simp [buildQueryParts, pushTruthyString],
    by simp [buildQueryParts, pushTruthyString],
    by simp [buildQueryParts, pushTruthyString],
    fun _ _ _ => rfl⟩

/-- C1 (code_bug evidence): `extractStripeApiKeys` retains an
`sk_`-prefixed (secret) value — mirroring the repository's own unit
test — although the README documents that secret keys are rejected with
an error; the claim that `sk_` values are always excluded fails here. -/
theorem StripeMCP.extractStripeApiKeys_retains_secret_key :
    StripeMCP.extractStripeApiKeys
        [("STRIPE_1ST_ACCOUNT_APIKEY", some "sk_test_111"),
         ("STRIPE_2ND_ACCOUNT_APIKEY", some "sk_test_222"),
         ("STRIPE_3RD_ACCOUNT_APIKEY", some "rk_test_333"),
         ("STRIPE_INVALID_KEY", some "not_a_valid_key"),
         ("OTHER_KEY", some "some_value"),
         ("NODE_ENV", some "test")]
      = [("1st_account", "sk_test_111"),
         ("2nd_account", "sk_test_222"),
         ("3rd_account", "rk_test_333")]
    ∧ StripeMCP.strStartsWith "sk_test_111" "sk_" = true := by
  constructor
  · decide
  · decide
